import Mathlib

/-!
Verification of the OpenCTI MCP server (`src/server.py`, `src/queries.py`).

The server exposes three tools (`search_knowledge_base`,
`get_observable_details`, `get_threat_entity`) that send fixed GraphQL
queries through one HTTP client wrapper (`OpenCTIClient.execute_query`)
and format the parsed JSON response into text.

We shallowly embed the Python code.  JSON values are modelled by the
inductive type `JValue`; Python's dynamic operations on them
(truthiness, subscripting, `dict.get`, the `or` fallback, iteration,
`str()` conversion, `str.join`) are modelled by total Lean functions
returning `Except String _` where the Python operation can raise, the
`String` being `str(exception)` of the raised exception.
-/

/-- A parsed JSON value, as produced by `response.json()` in Python. -/
inductive JValue where
  | jnull : JValue
  | jbool : Bool → JValue
  | jnum : Int → JValue
  | jstr : String → JValue
  | jarr : List JValue → JValue
  | jobj : List (String × JValue) → JValue
deriving Repr

namespace JValue

/-- Python's `type(v).__name__` for our values. -/
def typeName : JValue → String
  | jnull => "NoneType"
  | jbool _ => "bool"
  | jnum _ => "int"
  | jstr _ => "str"
  | jarr _ => "list"
  | jobj _ => "dict"

/-- Python truthiness: `bool(v)`. -/
def truthy : JValue → Bool
  | jnull => false
  | jbool b => b
  | jnum n => n != 0
  | jstr s => s != ""
  | jarr xs => !xs.isEmpty
  | jobj fs => !fs.isEmpty

/-- First-match lookup in an object's field list (the encodings used in
the theorems below never carry duplicate keys, so this is dict lookup). -/
def lookupField : List (String × JValue) → String → Option JValue
  | [], _ => none
  | (k, v) :: rest, key => if k == key then some v else lookupField rest key

mutual

/-- Python `repr(v)` (string escaping inside `repr` of a string is not
modelled; no input below contains a quote or backslash). -/
def pyRepr : JValue → String
  | jnull => "None"
  | jbool true => "True"
  | jbool false => "False"
  | jnum n => toString n
  | jstr s => "'" ++ s ++ "'"
  | jarr xs => "[" ++ pyReprItems xs ++ "]"
  | jobj fs => "\x7b" ++ pyReprFields fs ++ "\x7d"

/-- Comma-separated `repr`s of list items. -/
def pyReprItems : List JValue → String
  | [] => ""
  | [x] => pyRepr x
  | x :: y :: rest => pyRepr x ++ ", " ++ pyReprItems (y :: rest)

/-- Comma-separated `repr`s of dict entries. -/
def pyReprFields : List (String × JValue) → String
  | [] => ""
  | [(k, v)] => "'" ++ k ++ "': " ++ pyRepr v
  | (k, v) :: f :: rest => "'" ++ k ++ "': " ++ pyRepr v ++ ", " ++ pyReprFields (f :: rest)

end

/-- Python `str(v)`, as used by f-string interpolation. -/
def pyStr : JValue → String
  | jnull => "None"
  | jbool true => "True"
  | jbool false => "False"
  | jnum n => toString n
  | jstr s => s
  | jarr xs => pyRepr (jarr xs)
  | jobj fs => pyRepr (jobj fs)

/-- Python `a or b`: `a` when truthy, else `b`. -/
def pyOr (a b : JValue) : JValue := if a.truthy then a else b

/-- Python `v == s` for a string literal `s`: only a `str` can compare
equal to a `str`. -/
def pyEqStr (v : JValue) (s : String) : Bool :=
  match v with
  | jstr t => t == s
  | _ => false

/-- Python `v.get(k)` (`None` when the key is absent); raises
`AttributeError` on a non-dict. -/
def pyGet (v : JValue) (k : String) : Except String JValue :=
  match v with
  | jobj fs => .ok ((lookupField fs k).getD jnull)
  | _ => .error ("'" ++ typeName v ++ "' object has no attribute 'get'")

/-- Python `v.get(k, d)`; raises `AttributeError` on a non-dict. -/
def pyGetD (v : JValue) (k : String) (d : JValue) : Except String JValue :=
  match v with
  | jobj fs => .ok ((lookupField fs k).getD d)
  | _ => .error ("'" ++ typeName v ++ "' object has no attribute 'get'")

/-- Python `v[k]` for a string key: `KeyError` (whose `str` is the
quoted key) on a missing key, `TypeError` on non-dict subscripting. -/
def subscriptStr (v : JValue) (k : String) : Except String JValue :=
  match v with
  | jobj fs =>
    match lookupField fs k with
    | some x => .ok x
    | none => .error ("'" ++ k ++ "'")
  | jarr _ => .error "list indices must be integers or slices, not str"
  | jstr _ => .error "string indices must be integers"
  | _ => .error ("'" ++ typeName v ++ "' object is not subscriptable")

/-- The element of a list at an index, by structural recursion. -/
def pyIndex {α : Type} : List α → Nat → Option α
  | [], _ => none
  | x :: _, 0 => some x
  | _ :: xs, n + 1 => pyIndex xs n

/-- Python `v[i]` for a non-negative integer index. -/
def subscriptNat (v : JValue) (i : Nat) : Except String JValue :=
  match v with
  | jarr xs =>
    match pyIndex xs i with
    | some x => .ok x
    | none => .error "list index out of range"
  | jstr s =>
    match pyIndex s.toList i with
    | some c => .ok (jstr (String.mk [c]))
    | none => .error "string index out of range"
  | jobj _ => .error (toString i)
  | _ => .error ("'" ++ typeName v ++ "' object is not subscriptable")

/-- Python `for x in v`: the sequence of iterated values (list elements,
one-character strings of a string, keys of a dict); `TypeError`
otherwise. -/
def iterElems : JValue → Except String (List JValue)
  | jarr xs => .ok xs
  | jstr s => .ok (s.toList.map fun c => jstr (String.mk [c]))
  | jobj fs => .ok (fs.map fun f => jstr f.1)
  | v => .error ("'" ++ typeName v ++ "' object is not iterable")

/-- Python `"errors" in v` (the membership test on line 58 of
`server.py`): key membership for a dict, element membership for a list,
substring test for a string, `TypeError` otherwise. -/
def hasErrorsKey : JValue → Except String Bool
  | jobj fs => .ok (lookupField fs "errors").isSome
  | jarr xs => .ok (xs.any fun x => pyEqStr x "errors")
  | jstr s => .ok (decide ((s.splitOn "errors").length > 1))
  | v => .error ("argument of type '" ++ typeName v ++ "' is not iterable")

end JValue


/-- The Python `for`-loop accumulating one result per element of a
sequence, stopping at (and propagating) the first raised exception. -/
def mapMEx (f : JValue → Except String α) : List JValue → Except String (List α)
  | [] => .ok []
  | x :: xs => (f x).bind fun y => (mapMEx f xs).bind fun ys => .ok (y :: ys)

/-- Elements of a Python list checked to be `str`, in order, for
`sep.join(list)`; `TypeError` (with the item index) on a non-string. -/
def joinItems (i : Nat) : List JValue → Except String (List String)
  | [] => .ok []
  | .jstr s :: xs => (joinItems (i + 1) xs).bind fun ys => .ok (s :: ys)
  | v :: _ =>
    .error ("sequence item " ++ toString i ++ ": expected str instance, "
      ++ v.typeName ++ " found")

/-- Python `sep.join(xs)` on a list of values. -/
def pyJoin (sep : String) (xs : List JValue) : Except String String :=
  (joinItems 0 xs).bind fun ys => .ok (String.intercalate sep ys)

/-- An HTTP response from the OpenCTI endpoint: status code and parsed
JSON body (responses whose body is not JSON are outside this model). -/
structure HttpResponse where
  status : Nat
  body : JValue

/-- An exception escaping the `try` block of `execute_query`, as
distinguished by its `except` ladder: an `httpx.HTTPStatusError` from
`raise_for_status()`, or any other exception (including the `ToolError`
raised on line 61, which `except Exception` re-catches) carrying its
`str(e)`. An `httpx.RequestError` cannot occur once a response exists,
so it has no constructor here. -/
inductive PyExc where
  | httpStatus : Nat → PyExc
  | other : String → PyExc

/-- Lines 55-63 of `server.py` (the body of the `try` block):
`raise_for_status()` raises on any non-2xx status (httpx semantics);
then `if "errors" in data: raise ToolError(f"Error GraphQL: ...")`;
otherwise `return data.get("data", {})`. -/
def tryBody (resp : HttpResponse) : Except PyExc JValue :=
  if resp.status < 200 ∨ 300 ≤ resp.status then
    .error (.httpStatus resp.status)
  else
    match resp.body.hasErrorsKey with
    | .error m => .error (.other m)
    | .ok true =>
      match (resp.body.subscriptStr "errors").bind (fun errs =>
              (errs.subscriptNat 0).bind (fun e0 =>
                e0.subscriptStr "message")) with
      | .error m => .error (.other m)
      | .ok msg => .error (.other ("Error GraphQL: " ++ msg.pyStr))
    | .ok false =>
      match resp.body.pyGetD "data" (.jobj []) with
      | .error m => .error (.other m)
      | .ok d => .ok d

/-- `OpenCTIClient.execute_query` (lines 43-73), given the received
response: the `try` body's exceptions are mapped by the `except` ladder
to the `ToolError` messages of lines 67 and 73.  The `ToolError` raised
on line 61 is itself an `Exception`, so `except Exception` on line 71
re-wraps it with the "Error interno: " prefix. -/
def execute_query (resp : HttpResponse) : Except String JValue :=
  match tryBody resp with
  | .ok d => .ok d
  | .error (.httpStatus c) => .error ("Error de conexión con OpenCTI: " ++ toString c)
  | .error (.other m) => .error ("Error interno: " ++ m)

/-- The body of the `for` loop of `search_knowledge_base`
(lines 97-102): `node = edge["node"]`, the two `or`-fallback chains of
lines 100-101, and the f-string of line 102. -/
def formatSearchEdge (edge : JValue) : Except String String :=
  (edge.subscriptStr "node").bind fun node =>
  (node.pyGet "name").bind fun nm =>
  (node.pyGet "observable_value").bind fun ov =>
  (node.pyGet "description").bind fun de =>
  (node.pyGet "x_opencti_description").bind fun xd =>
  (node.subscriptStr "entity_type").bind fun et =>
  (node.subscriptStr "id").bind fun id =>
  .ok ("- [" ++ et.pyStr ++ "] "
    ++ (JValue.pyOr (JValue.pyOr nm ov) (.jstr "Desconocido")).pyStr
    ++ " (ID: " ++ id.pyStr ++ "): "
    ++ (JValue.pyOr (JValue.pyOr de xd) (.jstr "Sin descripción")).pyStr)

/-- `search_knowledge_base` (lines 81-104), applied to the `data`
mapping returned by `execute_query`. -/
def search_knowledge_base (data : JValue) : Except String String :=
  (data.pyGetD "globalSearch" (.jobj [])).bind fun gs =>
  (gs.pyGetD "edges" (.jarr [])).bind fun edges =>
  if edges.truthy = false then .ok "No se encontraron resultados."
  else
    (edges.iterElems).bind fun es =>
    (mapMEx formatSearchEdge es).bind fun results =>
    .ok (String.intercalate "\n" results)

/-- One element of the `indicators` comprehension of line 124:
`i["node"]["name"]`. -/
def indicatorName (i : JValue) : Except String JValue :=
  (i.subscriptStr "node").bind fun n => n.subscriptStr "name"

/-- One element of the `reports` comprehension of line 125:
`f"{r['node']['name']} ({r['node']['published']})"`. -/
def reportLine (r : JValue) : Except String String :=
  (r.subscriptStr "node").bind fun n =>
  (n.subscriptStr "name").bind fun nm =>
  (n.subscriptStr "published").bind fun pb =>
  .ok (nm.pyStr ++ " (" ++ pb.pyStr ++ ")")

/-- `get_observable_details` (lines 107-136), applied to the queried
value and the `data` mapping returned by `execute_query`. -/
def get_observable_details (value : String) (data : JValue) : Except String String :=
  (data.pyGetD "stixCyberObservables" (.jobj [])).bind fun sco =>
  (sco.pyGetD "edges" (.jarr [])).bind fun edges =>
  if edges.truthy = false then
    .ok ("No se encontró información para el observable: " ++ value)
  else
    (edges.subscriptNat 0).bind fun e0 =>
    (e0.subscriptStr "node").bind fun node =>
    (node.pyGetD "indicators" (.jobj [])).bind fun indField =>
    (indField.pyGetD "edges" (.jarr [])).bind fun indEdges =>
    (indEdges.iterElems).bind fun indElems =>
    (mapMEx indicatorName indElems).bind fun indicators =>
    (node.pyGetD "reports" (.jobj [])).bind fun repField =>
    (repField.pyGetD "edges" (.jarr [])).bind fun repEdges =>
    (repEdges.iterElems).bind fun repElems =>
    (mapMEx reportLine repElems).bind fun reports =>
    (node.subscriptStr "entity_type").bind fun et =>
    (node.subscriptStr "observable_value").bind fun ov =>
    (node.pyGet "x_opencti_score").bind fun sc =>
    (node.pyGet "x_opencti_description").bind fun xd =>
    (if indicators.isEmpty then .ok "Ninguno" else pyJoin ", " indicators).bind
      fun indJoined =>
    .ok (String.intercalate "\n"
      [ "Tipo: " ++ et.pyStr
      , "Valor: " ++ ov.pyStr
      , "Score: " ++ (JValue.pyOr sc (.jstr "N/A")).pyStr
      , "Descripción: " ++ (JValue.pyOr xd (.jstr "N/A")).pyStr
      , "Indicadores asociados: " ++ indJoined
      , "Mencionado en reportes: "
          ++ (if reports.isEmpty then "Ninguno" else String.intercalate ", " reports) ])

/-- `get_threat_entity` (lines 139-169), applied to the queried name
and the `data` mapping returned by `execute_query`.  The two `if`
comparisons of lines 162 and 166 re-subscript `node['entity_type']`,
which returns the same value as line 157. -/
def get_threat_entity (name : String) (data : JValue) : Except String String :=
  (data.pyGetD "stixDomainObjects" (.jobj [])).bind fun sdo =>
  (sdo.pyGetD "edges" (.jarr [])).bind fun edges =>
  if edges.truthy = false then .ok ("No se encontró la entidad: " ++ name)
  else
    (edges.subscriptNat 0).bind fun e0 =>
    (e0.subscriptStr "node").bind fun node =>
    (node.subscriptStr "name").bind fun nm =>
    (node.subscriptStr "entity_type").bind fun et =>
    (node.pyGet "description").bind fun de =>
    (node.pyGet "created").bind fun cr =>
    (if et.pyEqStr "Threat-Actor" then
        (node.pyGetD "threat_actor_types" (.jarr [])).bind fun ts =>
        (node.pyGetD "goals" (.jarr [])).bind fun gs =>
        .ok ["Tipos: " ++ ts.pyStr, "Objetivos: " ++ gs.pyStr]
      else .ok []).bind fun actorLines =>
    (if et.pyEqStr "Malware" then
        (node.pyGetD "is_family" (.jbool false)).bind fun isf =>
        .ok ["Familia de malware: " ++ isf.pyStr]
      else .ok []).bind fun malwareLines =>
    .ok (String.intercalate "\n"
      (["Nombre: " ++ nm.pyStr
       , "Tipo: " ++ et.pyStr
       , "Descripción: " ++ (JValue.pyOr de (.jstr "N/A")).pyStr
       , "Creado: " ++ (JValue.pyOr cr (.jstr "N/A")).pyStr]
        ++ actorLines ++ malwareLines))

/-- The `search_knowledge_base` tool end to end: `execute_query`
followed by the handler body (an executor failure propagates unchanged,
line 58 of the spec / line 90 of `server.py`). -/
def search_tool (resp : HttpResponse) : Except String String :=
  (execute_query resp).bind search_knowledge_base

/-- The `get_observable_details` tool end to end. -/
def observable_tool (value : String) (resp : HttpResponse) : Except String String :=
  (execute_query resp).bind (get_observable_details value)

/-- The `get_threat_entity` tool end to end. -/
def entity_tool (name : String) (resp : HttpResponse) : Except String String :=
  (execute_query resp).bind (get_threat_entity name)

/-! ## Response encodings used in the theorems -/

/-- A well-formed record of the `globalSearch` response, carrying the
fields the `SEARCH` template requests for a domain object. -/
structure SearchRec where
  id : String
  entity_type : String
  name : String
  description : String

/-- The JSON edge `{"node": {...}}` of one search record. -/
def encodeSearchEdge (r : SearchRec) : JValue :=
  .jobj [("node", .jobj
    [ ("id", .jstr r.id)
    , ("entity_type", .jstr r.entity_type)
    , ("name", .jstr r.name)
    , ("description", .jstr r.description) ])]

/-- The line `search_knowledge_base` produces for one encoded record
(the `pyOr` chains mirror the truthiness fallbacks of lines 100-101). -/
def searchLine (r : SearchRec) : String :=
  "- [" ++ r.entity_type ++ "] "
    ++ (JValue.pyOr (JValue.pyOr (.jstr r.name) .jnull) (.jstr "Desconocido")).pyStr
    ++ " (ID: " ++ r.id ++ "): "
    ++ (JValue.pyOr (JValue.pyOr (.jstr r.description) .jnull) (.jstr "Sin descripción")).pyStr

/-- A `data` mapping holding one key bound to `{"edges": es}`. -/
def mkEdgesData (key : String) (es : JValue) : JValue :=
  .jobj [(key, .jobj [("edges", es)])]

/-- The `data` mapping of a `globalSearch` response over the given
records. -/
def mkSearchData (recs : List SearchRec) : JValue :=
  mkEdgesData "globalSearch" (.jarr (recs.map encodeSearchEdge))

/-- A 200 response whose JSON body is `{"data": d}` (no `errors` key). -/
def mkResp (d : JValue) : HttpResponse := ⟨200, .jobj [("data", d)]⟩

/-! ## String helpers -/

/-- `noPrefixOf l1 l2` holds when `l1` is not a list prefix of `l2`. -/
def noPrefixOf : List Char → List Char → Bool
  | [], _ => false
  | _ :: _, [] => true
  | a :: as, b :: bs => a != b || noPrefixOf as bs

theorem ne_append_of_noPref : ∀ (l1 l2 : List Char), noPrefixOf l1 l2 = true →
    noPrefixOf l2 l1 = true → ∀ (t1 t2 : List Char), l1 ++ t1 ≠ l2 ++ t2 := by
  intro l1
  induction l1 with
  | nil => intro l2 h1 _ _ _ _; simp [noPrefixOf] at h1
  | cons a as ih =>
    intro l2 h1 h2 t1 t2 heq
    cases l2 with
    | nil => simp [noPrefixOf] at h2
    | cons b bs =>
      simp only [List.cons_append, List.cons.injEq] at heq
      obtain ⟨hab, htail⟩ := heq
      subst hab
      simp only [noPrefixOf, bne_self_eq_false, Bool.false_or] at h1 h2
      exact ih bs h1 h2 t1 t2 htail

/-- Appending different rigid prefixes yields different strings. -/
theorem str_append_ne (p1 p2 : String) (h1 : noPrefixOf p1.data p2.data = true)
    (h2 : noPrefixOf p2.data p1.data = true) (s t : String) : p1 ++ s ≠ p2 ++ t := by
  intro heq
  have hd := congrArg String.data heq
  rw [String.data_append, String.data_append] at hd
  exact ne_append_of_noPref _ _ h1 h2 s.data t.data hd

theorem noPrefixOf_self_append : ∀ (l t : List Char), noPrefixOf l (l ++ t) = false := by
  intro l
  induction l with
  | nil => intro t; rfl
  | cons a as ih => intro t; simp [noPrefixOf, ih]

/-- A string of which `p` is not a prefix differs from `p ++ s`. -/
theorem ne_append_left (l p : String) (h : noPrefixOf p.data l.data = true) :
    ∀ s : String, l ≠ p ++ s := by
  intro s heq
  have hd := congrArg String.data heq
  rw [String.data_append] at hd
  rw [hd, noPrefixOf_self_append] at h
  exact Bool.false_ne_true h

/-! ## Evaluation lemmas -/

theorem formatSearchEdge_encode (r : SearchRec) :
    formatSearchEdge (encodeSearchEdge r) = .ok (searchLine r) := rfl

theorem mapMEx_search : ∀ l : List SearchRec,
    mapMEx formatSearchEdge (l.map encodeSearchEdge) = .ok (l.map searchLine) := by
  intro l
  induction l with
  | nil => rfl
  | cons r rest ih =>
    simp only [List.map_cons, mapMEx, formatSearchEdge_encode, ih, Except.bind]

/-- On a non-empty encoded `globalSearch` response, the handler returns
the newline join of one formatted line per record. -/
theorem search_eval (recs : List SearchRec) (h : recs ≠ []) :
    search_knowledge_base (mkSearchData recs)
      = .ok (String.intercalate "\n" (recs.map searchLine)) := by
  cases recs with
  | nil => exact absurd rfl h
  | cons r rest =>
    show (mapMEx formatSearchEdge (List.map encodeSearchEdge (r :: rest))).bind
        (fun results => Except.ok (String.intercalate "\n" results))
      = Except.ok (String.intercalate "\n" (List.map searchLine (r :: rest)))
    rw [mapMEx_search]
    rfl

/-- A 200 response with body `{"data": d}` makes `execute_query`
return `d`. -/
theorem exec_mkResp (d : JValue) : execute_query (mkResp d) = .ok d := rfl

/-- A `stixDomainObjects` response whose single record carries `name`,
`entity_type`, `description` and `created` (and none of the
type-specific fields). -/
def mkEntityData (nm et d c : String) : JValue :=
  mkEdgesData "stixDomainObjects"
    (.jarr [.jobj [("node", .jobj
      [ ("name", .jstr nm)
      , ("entity_type", .jstr et)
      , ("description", .jstr d)
      , ("created", .jstr c) ])]])

/-- The lines `get_threat_entity` produces for such a record: the four
base lines, then the two actor lines when the type is `Threat-Actor`
(the absent type-specific lists render as `[]`), then the malware line
when the type is `Malware` (the absent flag renders as `False`). -/
def entityLines (nm et d c : String) : List String :=
  [ "Nombre: " ++ nm
  , "Tipo: " ++ et
  , "Descripción: " ++ (JValue.pyOr (.jstr d) (.jstr "N/A")).pyStr
  , "Creado: " ++ (JValue.pyOr (.jstr c) (.jstr "N/A")).pyStr ]
  ++ (if et = "Threat-Actor" then ["Tipos: []", "Objetivos: []"] else [])
  ++ (if et = "Malware" then ["Familia de malware: False"] else [])

theorem entity_eval (n nm et d c : String) :
    get_threat_entity n (mkEntityData nm et d c)
      = .ok (String.intercalate "\n" (entityLines nm et d c)) := by
  show Except.bind
      (if (et == "Threat-Actor") = true then
        Except.ok ["Tipos: []", "Objetivos: []"] else Except.ok [])
      (fun actorLines => Except.bind
        (if (et == "Malware") = true then
          Except.ok ["Familia de malware: False"] else Except.ok [])
        (fun malwareLines =>
          Except.ok (String.intercalate "\n"
            (["Nombre: " ++ nm, "Tipo: " ++ et,
              "Descripción: " ++ (JValue.pyOr (.jstr d) (.jstr "N/A")).pyStr,
              "Creado: " ++ (JValue.pyOr (.jstr c) (.jstr "N/A")).pyStr]
              ++ actorLines ++ malwareLines))))
    = Except.ok (String.intercalate "\n" (entityLines nm et d c))
  by_cases h1 : et = "Threat-Actor"
  · subst h1; rfl
  · by_cases h2 : et = "Malware"
    · subst h2; rfl
    · simp only [entityLines, if_neg h1, if_neg h2]
      rw [if_neg (fun hc => h1 (by simpa using hc))]
      rw [if_neg (fun hc => h2 (by simpa using hc))]
      rfl

theorem entityLines_no_tipos (nm et d c : String) (h1 : et ≠ "Threat-Actor") :
    ∀ l ∈ entityLines nm et d c, ∀ s, l ≠ "Tipos: " ++ s := by
  intro l hl s
  simp only [entityLines, if_neg h1, List.nil_append] at hl
  by_cases h2 : et = "Malware"
  · subst h2
    simp only [eq_self_iff_true, if_true, List.append_nil, List.nil_append,
      List.cons_append, List.mem_cons, List.mem_singleton, List.not_mem_nil,
      or_false] at hl
    rcases hl with rfl | rfl | rfl | rfl | rfl
    all_goals first
      | exact str_append_ne _ _ (by decide) (by decide) _ _
      | exact ne_append_left _ _ (by decide) _
  · simp only [if_neg h2, List.append_nil, List.mem_cons, List.mem_singleton,
      List.not_mem_nil, or_false] at hl
    rcases hl with rfl | rfl | rfl | rfl
    all_goals first
      | exact str_append_ne _ _ (by decide) (by decide) _ _
      | exact ne_append_left _ _ (by decide) _

theorem entityLines_no_objetivos (nm et d c : String) (h1 : et ≠ "Threat-Actor") :
    ∀ l ∈ entityLines nm et d c, ∀ s, l ≠ "Objetivos: " ++ s := by
  intro l hl s
  simp only [entityLines, if_neg h1, List.nil_append] at hl
  by_cases h2 : et = "Malware"
  · subst h2
    simp only [eq_self_iff_true, if_true, List.append_nil, List.nil_append,
      List.cons_append, List.mem_cons, List.mem_singleton, List.not_mem_nil,
      or_false] at hl
    rcases hl with rfl | rfl | rfl | rfl | rfl
    all_goals first
      | exact str_append_ne _ _ (by decide) (by decide) _ _
      | exact ne_append_left _ _ (by decide) _
  · simp only [if_neg h2, List.append_nil, List.mem_cons, List.mem_singleton,
      List.not_mem_nil, or_false] at hl
    rcases hl with rfl | rfl | rfl | rfl
    all_goals first
      | exact str_append_ne _ _ (by decide) (by decide) _ _
      | exact ne_append_left _ _ (by decide) _

theorem entityLines_no_familia (nm et d c : String) (h1 : et ≠ "Malware") :
    ∀ l ∈ entityLines nm et d c, ∀ s, l ≠ "Familia de malware: " ++ s := by
  intro l hl s
  simp only [entityLines, if_neg h1, List.append_nil] at hl
  by_cases h2 : et = "Threat-Actor"
  · subst h2
    simp only [eq_self_iff_true, if_true, List.append_nil, List.nil_append,
      List.cons_append, List.mem_cons, List.mem_singleton, List.not_mem_nil,
      or_false] at hl
    rcases hl with rfl | rfl | rfl | rfl | rfl | rfl
    all_goals first
      | exact str_append_ne _ _ (by decide) (by decide) _ _
      | exact ne_append_left _ _ (by decide) _
  · simp only [if_neg h2, List.append_nil, List.mem_cons, List.mem_singleton,
      List.not_mem_nil, or_false] at hl
    rcases hl with rfl | rfl | rfl | rfl
    all_goals first
      | exact str_append_ne _ _ (by decide) (by decide) _ _
      | exact ne_append_left _ _ (by decide) _

/-- A `stixCyberObservables` response record whose indicator edge node
lacks the `name` field. -/
def c2BadIndicator : JValue :=
  mkEdgesData "stixCyberObservables" (.jarr [.jobj [("node", .jobj
    [ ("entity_type", .jstr "IPv4-Addr")
    , ("observable_value", .jstr "8.8.8.8")
    , ("indicators", .jobj [("edges", .jarr
        [ .jobj [("node", .jobj [("pattern", .jstr "x")])] ])]) ])]])

/-- A `stixCyberObservables` response record whose report edge node
lacks the `published` field. -/
def c2BadReport : JValue :=
  mkEdgesData "stixCyberObservables" (.jarr [.jobj [("node", .jobj
    [ ("entity_type", .jstr "IPv4-Addr")
    , ("observable_value", .jstr "8.8.8.8")
    , ("reports", .jobj [("edges", .jarr
        [ .jobj [("node", .jobj [("name", .jstr "r")])] ])]) ])]])

/-- An observable record with score 50, two indicators and one report. -/
def c8Node (et vl i1 i2 rn pub : String) : JValue :=
  .jobj
    [ ("entity_type", .jstr et)
    , ("observable_value", .jstr vl)
    , ("x_opencti_score", .jnum 50)
    , ("indicators", .jobj [("edges", .jarr
        [ .jobj [("node", .jobj [("name", .jstr i1)])]
        , .jobj [("node", .jobj [("name", .jstr i2)])] ])])
    , ("reports", .jobj [("edges", .jarr
        [ .jobj [("node", .jobj [("name", .jstr rn), ("published", .jstr pub)])] ])]) ]

/-- An observable record with score 0 and empty description: both
fields present but falsy. -/
def c10Node (et vl : String) : JValue :=
  .jobj
    [ ("entity_type", .jstr et)
    , ("observable_value", .jstr vl)
    , ("x_opencti_score", .jnum 0)
    , ("x_opencti_description", .jstr "") ]

/-! ## Claims -/

/-- C1: for every 2xx response whose JSON body has a non-empty `errors`
list whose first element carries a `message`, `execute_query` raises a
`ToolError` whose message carries that first error message (re-wrapped
by the generic handler of line 71 with the "Error interno: " prefix),
and does not return the `data` mapping. -/
theorem C1_graphql_errors_fail_with_first_message
    (s : Nat) (fields efs : List (String × JValue)) (rest : List JValue) (m : JValue)
    (h1 : 200 ≤ s) (h2 : s < 300)
    (he : JValue.lookupField fields "errors" = some (.jarr (.jobj efs :: rest)))
    (hm : JValue.lookupField efs "message" = some m) :
    execute_query ⟨s, .jobj fields⟩
      = .error ("Error interno: Error GraphQL: " ++ m.pyStr)
    ∧ ∀ d, execute_query ⟨s, .jobj fields⟩ ≠ .ok d := by
  have hng : ¬ (s < 200 ∨ 300 ≤ s) := by omega
  have hcore : execute_query ⟨s, .jobj fields⟩
      = .error ("Error interno: " ++ ("Error GraphQL: " ++ m.pyStr)) := by
    unfold execute_query tryBody
    rw [if_neg hng]
    simp only [JValue.hasErrorsKey, he, Option.isSome_some, JValue.subscriptStr,
      JValue.subscriptNat, JValue.pyIndex, hm, Except.bind]
  refine ⟨hcore, fun d hd => ?_⟩
  rw [hcore] at hd
  exact Except.noConfusion hd

/-- Witness for C1 at a concrete response: HTTP 200 with one GraphQL
error whose message is "Auth failure". -/
theorem C1_graphql_errors_witness :
    execute_query ⟨200, .jobj
        [("errors", .jarr [.jobj [("message", .jstr "Auth failure")]])]⟩
      = .error "Error interno: Error GraphQL: Auth failure"
    ∧ ∀ d, execute_query ⟨200, .jobj
        [("errors", .jarr [.jobj [("message", .jstr "Auth failure")]])]⟩ ≠ .ok d :=
  C1_graphql_errors_fail_with_first_message 200
    [("errors", .jarr [.jobj [("message", .jstr "Auth failure")]])]
    [("message", .jstr "Auth failure")] [] (.jstr "Auth failure")
    (by decide) (by decide) rfl rfl

/-- C2 counterexample: the claim says formatting never raises a failure
on a missing optional field, including a missing `name` on an indicator
edge; but on a response whose indicator edge node lacks `name`,
`get_observable_details` raises an uncaught `KeyError` (line 124
subscripts `i["node"]["name"]` directly), surfacing as a failure, not
a placeholder. -/
theorem C2_missing_indicator_name_raises :
    observable_tool "8.8.8.8" (mkResp c2BadIndicator) = .error "'name'" := rfl

/-- C2 as amended: the handlers substitute fixed placeholders
("Desconocido", "Sin descripción", "N/A", "Ninguno") for absent
optional top-level fields of a record and succeed, and the absent
type-specific entity fields render as their lookup defaults ("[]",
"False"); but sub-fields of indicator and report edges (`name`,
`published`) are accessed by direct subscript, so their absence raises
an uncaught `KeyError` that surfaces as a failed call. -/
theorem C2_amended_placeholders_top_level_only (et id vl nm : String) :
    search_tool (mkResp (mkEdgesData "globalSearch"
        (.jarr [.jobj [("node", .jobj [("id", .jstr id), ("entity_type", .jstr et)])]])))
      = .ok ("- [" ++ et ++ "] " ++ "Desconocido" ++ " (ID: " ++ id ++ "): " ++ "Sin descripción")
    ∧ observable_tool vl (mkResp (mkEdgesData "stixCyberObservables"
        (.jarr [.jobj [("node", .jobj
          [("entity_type", .jstr et), ("observable_value", .jstr vl)])]])))
      = .ok (String.intercalate "\n"
          ["Tipo: " ++ et, "Valor: " ++ vl, "Score: N/A", "Descripción: N/A",
           "Indicadores asociados: Ninguno", "Mencionado en reportes: Ninguno"])
    ∧ entity_tool nm (mkResp (mkEdgesData "stixDomainObjects"
        (.jarr [.jobj [("node", .jobj
          [("name", .jstr nm), ("entity_type", .jstr "Intrusion-Set")])]])))
      = .ok (String.intercalate "\n"
          ["Nombre: " ++ nm, "Tipo: Intrusion-Set", "Descripción: N/A", "Creado: N/A"])
    ∧ entity_tool nm (mkResp (mkEdgesData "stixDomainObjects"
        (.jarr [.jobj [("node", .jobj
          [("name", .jstr nm), ("entity_type", .jstr "Threat-Actor")])]])))
      = .ok (String.intercalate "\n"
          ["Nombre: " ++ nm, "Tipo: Threat-Actor", "Descripción: N/A", "Creado: N/A",
           "Tipos: []", "Objetivos: []"])
    ∧ observable_tool vl (mkResp c2BadIndicator) = .error "'name'"
    ∧ observable_tool vl (mkResp c2BadReport) = .error "'published'" :=
  ⟨rfl, rfl, rfl, rfl, rfl, rfl⟩

/-- C3: for every response with N matching records (N at least 1), the
search tool returns the newline join of exactly N lines, the i-th of
which contains the i-th record's entity type tag and id verbatim. -/
theorem C3_search_line_per_record (recs : List SearchRec) (h : recs ≠ []) :
    ∃ ls : List String,
      search_tool (mkResp (mkSearchData recs)) = .ok (String.intercalate "\n" ls)
      ∧ ls.length = recs.length
      ∧ ∀ (i : Nat) (r : SearchRec), recs[i]? = some r →
          ∃ p q u, ls[i]? = some (p ++ r.entity_type ++ q ++ r.id ++ u) := by
  refine ⟨recs.map searchLine, ?_, by simp, ?_⟩
  · show (execute_query (mkResp (mkSearchData recs))).bind search_knowledge_base = _
    rw [exec_mkResp]
    exact search_eval recs h
  · intro i r hir
    rw [List.getElem?_map, hir]
    refine ⟨"- [",
      "] " ++ (JValue.pyOr (JValue.pyOr (.jstr r.name) .jnull) (.jstr "Desconocido")).pyStr
        ++ " (ID: ",
      "): " ++ (JValue.pyOr (JValue.pyOr (.jstr r.description) .jnull)
        (.jstr "Sin descripción")).pyStr, ?_⟩
    simp only [Option.map_some']
    congr 1
    simp only [searchLine, String.append_assoc]

/-- Witness for C3 on a concrete two-record response. -/
theorem C3_search_line_witness :
    ∃ ls : List String,
      search_tool (mkResp (mkSearchData
          [⟨"id1", "Malware", "Emotet", "a bot"⟩, ⟨"id2", "Tool", "", ""⟩]))
        = .ok (String.intercalate "\n" ls)
      ∧ ls.length = ([⟨"id1", "Malware", "Emotet", "a bot"⟩,
          ⟨"id2", "Tool", "", ""⟩] : List SearchRec).length
      ∧ ∀ (i : Nat) (r : SearchRec),
          ([⟨"id1", "Malware", "Emotet", "a bot"⟩,
            ⟨"id2", "Tool", "", ""⟩] : List SearchRec)[i]? = some r →
          ∃ p q u, ls[i]? = some (p ++ r.entity_type ++ q ++ r.id ++ u) :=
  C3_search_line_per_record
    [⟨"id1", "Malware", "Emotet", "a bot"⟩, ⟨"id2", "Tool", "", ""⟩]
    (List.cons_ne_nil _ _)

/-- C4: when the remote response carries an empty edge list, each of
the three tools returns its fixed no-results sentinel (the latter two
containing the queried value) and does not fail. -/
theorem C4_empty_edges_sentinel_texts (value name : String) :
    search_tool (mkResp (mkEdgesData "globalSearch" (.jarr [])))
      = .ok "No se encontraron resultados."
    ∧ observable_tool value (mkResp (mkEdgesData "stixCyberObservables" (.jarr [])))
      = .ok ("No se encontró información para el observable: " ++ value)
    ∧ (∃ p : String, "No se encontró información para el observable: " ++ value
        = p ++ value)
    ∧ entity_tool name (mkResp (mkEdgesData "stixDomainObjects" (.jarr [])))
      = .ok ("No se encontró la entidad: " ++ name)
    ∧ (∃ p : String, "No se encontró la entidad: " ++ name = p ++ name) :=
  ⟨rfl, rfl, ⟨"No se encontró información para el observable: ", rfl⟩,
   rfl, ⟨"No se encontró la entidad: ", rfl⟩⟩

/-- C5: with two or more matching records, `get_observable_details` and
`get_threat_entity` depend only on the first record (any tail of
further edges leaves the output unchanged), while
`search_knowledge_base` formats every record as one line. -/
theorem C5_first_record_only_vs_all (e1 e2 : JValue) (rest1 rest2 : List JValue)
    (value name : String) (recs : List SearchRec) (h : recs ≠ []) :
    observable_tool value (mkResp (mkEdgesData "stixCyberObservables" (.jarr (e1 :: rest1))))
      = observable_tool value (mkResp (mkEdgesData "stixCyberObservables" (.jarr [e1])))
    ∧ entity_tool name (mkResp (mkEdgesData "stixDomainObjects" (.jarr (e2 :: rest2))))
      = entity_tool name (mkResp (mkEdgesData "stixDomainObjects" (.jarr [e2])))
    ∧ search_tool (mkResp (mkSearchData recs))
      = .ok (String.intercalate "\n" (recs.map searchLine)) := by
  refine ⟨by rfl, by rfl, ?_⟩
  show (execute_query (mkResp (mkSearchData recs))).bind search_knowledge_base = _
  rw [exec_mkResp]
  exact search_eval recs h

/-- Witness for C5 with a two-edge observable/entity response and a
one-record search response. -/
theorem C5_first_record_only_witness :
    observable_tool "1.2.3.4" (mkResp (mkEdgesData "stixCyberObservables"
        (.jarr (.jobj [("node", .jobj [("entity_type", .jstr "IPv4-Addr"),
          ("observable_value", .jstr "1.2.3.4")])] :: [.jnull]))))
      = observable_tool "1.2.3.4" (mkResp (mkEdgesData "stixCyberObservables"
        (.jarr [.jobj [("node", .jobj [("entity_type", .jstr "IPv4-Addr"),
          ("observable_value", .jstr "1.2.3.4")])]])))
    ∧ entity_tool "APT28" (mkResp (mkEdgesData "stixDomainObjects"
        (.jarr (.jobj [("node", .jobj [("name", .jstr "APT28"),
          ("entity_type", .jstr "Threat-Actor")])] :: [.jnull]))))
      = entity_tool "APT28" (mkResp (mkEdgesData "stixDomainObjects"
        (.jarr [.jobj [("node", .jobj [("name", .jstr "APT28"),
          ("entity_type", .jstr "Threat-Actor")])]])))
    ∧ search_tool (mkResp (mkSearchData [⟨"id1", "Malware", "Emotet", "a bot"⟩]))
      = .ok (String.intercalate "\n"
          (([⟨"id1", "Malware", "Emotet", "a bot"⟩] : List SearchRec).map searchLine)) :=
  C5_first_record_only_vs_all _ _ [.jnull] [.jnull] "1.2.3.4" "APT28"
    [⟨"id1", "Malware", "Emotet", "a bot"⟩] (List.cons_ne_nil _ _)

/-- C6: any response with a non-2xx status makes `execute_query` (and
hence every tool) fail with a `ToolError` carrying the status code;
no success text is returned. -/
theorem C6_non_2xx_fails_with_status (s : Nat) (body : JValue) (value name : String)
    (h : s < 200 ∨ 300 ≤ s) :
    execute_query ⟨s, body⟩ = .error ("Error de conexión con OpenCTI: " ++ toString s)
    ∧ search_tool ⟨s, body⟩ = .error ("Error de conexión con OpenCTI: " ++ toString s)
    ∧ observable_tool value ⟨s, body⟩
      = .error ("Error de conexión con OpenCTI: " ++ toString s)
    ∧ entity_tool name ⟨s, body⟩
      = .error ("Error de conexión con OpenCTI: " ++ toString s) := by
  have hx : execute_query ⟨s, body⟩
      = .error ("Error de conexión con OpenCTI: " ++ toString s) := by
    unfold execute_query tryBody
    rw [if_pos h]
  refine ⟨hx, ?_, ?_, ?_⟩ <;>
    simp only [search_tool, observable_tool, entity_tool, hx, Except.bind]

/-- Witness for C6 at HTTP 500. -/
theorem C6_non_2xx_witness :
    execute_query ⟨500, .jobj []⟩ = .error "Error de conexión con OpenCTI: 500"
    ∧ search_tool ⟨500, .jobj []⟩ = .error "Error de conexión con OpenCTI: 500"
    ∧ observable_tool "8.8.8.8" ⟨500, .jobj []⟩
      = .error "Error de conexión con OpenCTI: 500"
    ∧ entity_tool "APT28" ⟨500, .jobj []⟩
      = .error "Error de conexión con OpenCTI: 500" :=
  C6_non_2xx_fails_with_status 500 (.jobj []) "8.8.8.8" "APT28" (by omega)

/-- C7: for the first matching entity record, the output has a
"Tipos:" line and an "Objetivos:" line exactly when the entity type is
`Threat-Actor`, and a "Familia de malware:" line exactly when it is
`Malware`. -/
theorem C7_entity_type_specific_lines (n nm et d c : String) :
    ∃ ls : List String,
      entity_tool n (mkResp (mkEntityData nm et d c)) = .ok (String.intercalate "\n" ls)
      ∧ ((∃ l ∈ ls, ∃ s, l = "Tipos: " ++ s) ↔ et = "Threat-Actor")
      ∧ ((∃ l ∈ ls, ∃ s, l = "Objetivos: " ++ s) ↔ et = "Threat-Actor")
      ∧ ((∃ l ∈ ls, ∃ s, l = "Familia de malware: " ++ s) ↔ et = "Malware") := by
  refine ⟨entityLines nm et d c, ?_, ?_, ?_, ?_⟩
  · show (execute_query (mkResp (mkEntityData nm et d c))).bind (get_threat_entity n) = _
    rw [exec_mkResp]
    exact entity_eval n nm et d c
  · constructor
    · rintro ⟨l, hl, s, hs⟩
      by_contra h1
      exact entityLines_no_tipos nm et d c h1 l hl s hs
    · rintro rfl
      exact ⟨"Tipos: []", by simp [entityLines], "[]", by decide⟩
  · constructor
    · rintro ⟨l, hl, s, hs⟩
      by_contra h1
      exact entityLines_no_objetivos nm et d c h1 l hl s hs
    · rintro rfl
      exact ⟨"Objetivos: []", by simp [entityLines], "[]", by decide⟩
  · constructor
    · rintro ⟨l, hl, s, hs⟩
      by_contra h1
      exact entityLines_no_familia nm et d c h1 l hl s hs
    · rintro rfl
      exact ⟨"Familia de malware: False", by simp [entityLines], "False", by decide⟩

/-- C8: on a response whose first observable record has score 50, two
indicators and one report, the output has the "Score: 50" line, the
two indicator names joined by ", ", and the report rendered as
`name (published)`. -/
theorem C8_observable_details_formatting (value et vl i1 i2 rn pub : String) :
    ∃ ls : List String,
      observable_tool value (mkResp (mkEdgesData "stixCyberObservables"
          (.jarr [.jobj [("node", c8Node et vl i1 i2 rn pub)]])))
        = .ok (String.intercalate "\n" ls)
      ∧ "Score: 50" ∈ ls
      ∧ ("Indicadores asociados: " ++ (i1 ++ ", " ++ i2)) ∈ ls
      ∧ ("Mencionado en reportes: " ++ (rn ++ " (" ++ pub ++ ")")) ∈ ls := by
  refine ⟨["Tipo: " ++ et, "Valor: " ++ vl, "Score: 50", "Descripción: N/A",
    "Indicadores asociados: " ++ (i1 ++ ", " ++ i2),
    "Mencionado en reportes: " ++ (rn ++ " (" ++ pub ++ ")")],
    by rfl, by simp, by simp, by simp⟩

/-- C9: a 2xx body whose `errors` key holds an empty list neither
returns the data mapping nor surfaces a GraphQL message: indexing the
empty list raises `IndexError`, re-wrapped by the generic handler into
"Error interno: list index out of range". -/
theorem C9_empty_errors_list_internal_error (s : Nat) (fields : List (String × JValue))
    (h1 : 200 ≤ s) (h2 : s < 300)
    (he : JValue.lookupField fields "errors" = some (.jarr [])) :
    execute_query ⟨s, .jobj fields⟩
      = .error "Error interno: list index out of range" := by
  have hng : ¬ (s < 200 ∨ 300 ≤ s) := by omega
  unfold execute_query tryBody
  rw [if_neg hng]
  simp only [JValue.hasErrorsKey, he, Option.isSome_some, JValue.subscriptStr,
    JValue.subscriptNat, JValue.pyIndex, Except.bind]
  rfl

/-- Witness for C9: HTTP 200 with `"errors": []`. -/
theorem C9_empty_errors_witness :
    execute_query ⟨200, .jobj [("errors", .jarr []), ("data", .jobj [])]⟩
      = .error "Error interno: list index out of range" :=
  C9_empty_errors_list_internal_error 200 [("errors", .jarr []), ("data", .jobj [])]
    (by decide) (by decide) rfl

/-- C10: a first observable record whose `x_opencti_score` is 0 and
whose `x_opencti_description` is "" renders the placeholders
"Score: N/A" and "Descripción: N/A" instead of the falsy actual
values, because the fallback is by truthiness. -/
theorem C10_falsy_fields_render_placeholder (value et vl : String) :
    ∃ ls : List String,
      observable_tool value (mkResp (mkEdgesData "stixCyberObservables"
          (.jarr [.jobj [("node", c10Node et vl)]])))
        = .ok (String.intercalate "\n" ls)
      ∧ "Score: N/A" ∈ ls ∧ "Descripción: N/A" ∈ ls
      ∧ "Score: 0" ∉ ls ∧ "Descripción: " ∉ ls := by
  refine ⟨["Tipo: " ++ et, "Valor: " ++ vl, "Score: N/A", "Descripción: N/A",
    "Indicadores asociados: Ninguno", "Mencionado en reportes: Ninguno"],
    by rfl, by simp, by simp, ?_, ?_⟩
  · intro hmem
    simp only [List.mem_cons, List.not_mem_nil, or_false] at hmem
    rcases hmem with h | h | h | h | h | h
    all_goals first
      | exact ne_append_left _ _ (by decide) _ h
      | exact absurd h (by decide)
  · intro hmem
    simp only [List.mem_cons, List.not_mem_nil, or_false] at hmem
    rcases hmem with h | h | h | h | h | h
    all_goals first
      | exact ne_append_left _ _ (by decide) _ h
      | exact absurd h (by decide)
